import Mathlib

/-!
Verification of the bridge-gap-resonator scattering-parameter pipeline
(`examples/meep/bridge_gap_resonator.py` and
`crates/meep-export/examples/bridge_gap_resonator_meep.py`).

The Python script drives an external FDTD solver; its own logic is the
construction of geometry/monitor descriptors, the two-pass
reference-subtraction protocol, and the per-bin S-parameter arithmetic.
We embed that logic shallowly: flux values and lengths are `ℚ` (the
script's float arithmetic, modelled exactly), decibel values are `ℝ`
(`np.log10` becomes `Real.logb 10`), the solver-affecting calls of the
script become an explicit event trace in program order.
-/

namespace BridgeGapResonator

/-- `MM_TO_UM = 1000` (line 36 of bridge_gap_resonator.py). -/
def MM_TO_UM : ℚ := 1000

/-- Configuration dictionary of bridge_gap_resonator.py (lines 38-57). -/
structure Config where
  gap : ℚ
  bridge_w : ℚ
  bridge_t : ℚ
  pad_length : ℚ
  substrate_r : ℚ
  substrate_h : ℚ
  wall_thickness : ℚ
  resolution : ℚ
  pml_thickness : ℚ
  freq_center_ghz : ℚ
  freq_width_ghz : ℚ
  deriving DecidableEq

/-- The default `config` literal (lines 38-57). -/
def config : Config where
  gap := 2.5 * MM_TO_UM
  bridge_w := 8 * MM_TO_UM
  bridge_t := 0.5 * MM_TO_UM
  pad_length := 25 * MM_TO_UM
  substrate_r := 15 * MM_TO_UM
  substrate_h := 9.6 * MM_TO_UM
  wall_thickness := 2 * MM_TO_UM
  resolution := 5
  pml_thickness := 2000
  freq_center_ghz := 5
  freq_width_ghz := 4

/-- `ghz_to_meep` (lines 61-62): divide by the fixed constant 300
(speed of light in um per ns, i.e. c / length-unit for GHz input). -/
def ghz_to_meep (f_ghz : ℚ) : ℚ := f_ghz / 300

/-- `meep_to_ghz` (lines 64-65): multiply by the same constant 300. -/
def meep_to_ghz (f_meep : ℚ) : ℚ := f_meep * 300

/-- Material references as the script uses them: `mp.metal` (copper as
perfect conductor), `mp.Medium(epsilon=...)` (FR4), `mp.air`. -/
inductive Material where
  | metal : Material
  | medium (epsilon : ℚ) : Material
  | air : Material
  deriving DecidableEq

/-- A 3-vector (`mp.Vector3`) with rational components. -/
structure Vec3 where
  x : ℚ
  y : ℚ
  z : ℚ
  deriving DecidableEq

/-- Geometry primitives the scripts construct: `mp.Block(center, size,
material)` and `mp.Cylinder(center, radius, height, [axis], material)`;
`axis` is the optional argument (defaulting to the z axis when absent). -/
inductive Primitive where
  | block (center : Vec3) (size : Vec3) (material : Material) : Primitive
  | cylinder (center : Vec3) (radius : ℚ) (height : ℚ)
      (axis : Option Vec3) (material : Material) : Primitive
  deriving DecidableEq

/-- `build_geometry(cfg)` of bridge_gap_resonator.py (lines 91-154): the
ordered list of appended primitives — left pad, right pad, bridge, outer
FR4 cylinder, inner air cylinder (radius shrunk by the wall thickness,
height `substrate_h + 100` "slightly taller to ensure clean cut"). -/
def build_geometry (cfg : Config) : List Primitive :=
  let gap := cfg.gap
  let bridge_w := cfg.bridge_w
  let bridge_t := cfg.bridge_t
  let pad_length := cfg.pad_length
  let bridge_width := gap + 4 * MM_TO_UM
  let bridge_height := bridge_t * 0.5
  let bridge_y_size := bridge_w * 0.6
  let substrate_r := cfg.substrate_r
  let substrate_h := cfg.substrate_h
  let wall_t := cfg.wall_thickness
  [Primitive.block ⟨-gap/2 - pad_length/2, 0, bridge_t/2⟩
      ⟨pad_length, bridge_w, bridge_t⟩ Material.metal,
   Primitive.block ⟨gap/2 + pad_length/2, 0, bridge_t/2⟩
      ⟨pad_length, bridge_w, bridge_t⟩ Material.metal,
   Primitive.block ⟨0, 0, bridge_t * 1.25⟩
      ⟨bridge_width, bridge_y_size, bridge_height⟩ Material.metal,
   Primitive.cylinder ⟨0, 0, -substrate_h/2⟩ substrate_r substrate_h
      none (Material.medium 4.4),
   Primitive.cylinder ⟨0, 0, -substrate_h/2⟩ (substrate_r - wall_t)
      (substrate_h + 100) none Material.air]

/-- `build_geometry()` of the generated script
bridge_gap_resonator_meep.py (lines 44-103): the same five primitives
with baked-in numeric values; the two cylinders carry an explicit z
axis, `tube_outer` (height 9600) before `tube_inner` (height 10000,
`mp.air`). -/
def build_geometry_meep : List Primitive :=
  [Primitive.block ⟨-13750, 0, 250⟩ ⟨25000, 8000, 500⟩ Material.metal,
   Primitive.block ⟨13750, 0, 250⟩ ⟨25000, 8000, 500⟩ Material.metal,
   Primitive.block ⟨0, 0, 625⟩ ⟨6500, 4800, 250⟩ Material.metal,
   Primitive.cylinder ⟨0, 0, 0⟩ 15000 9600 (some ⟨0, 0, 1⟩)
      (Material.medium 4.4),
   Primitive.cylinder ⟨0, 0, 0⟩ 13000 10000 (some ⟨0, 0, 1⟩) Material.air]

/-- `fcen = ghz_to_meep(cfg["freq_center_ghz"])` inside
`create_simulation` (line 184). -/
def fcen_of (cfg : Config) : ℚ := ghz_to_meep cfg.freq_center_ghz

/-- `fwidth = ghz_to_meep(cfg["freq_width_ghz"])` inside
`create_simulation` (line 185). -/
def fwidth_of (cfg : Config) : ℚ := ghz_to_meep cfg.freq_width_ghz

/-- An `mp.FluxRegion(center, size)`. -/
structure FluxRegion where
  center : Vec3
  size : Vec3
  deriving DecidableEq

/-- The descriptor handed to `sim.add_flux(fcen, fwidth, nfreq, region)`. -/
structure FluxMonitor where
  fcen : ℚ
  fwidth : ℚ
  nfreq : ℕ
  region : FluxRegion
  deriving DecidableEq

/-- The reflection flux monitor `monitors["refl"]` the main run adds in
`setup_monitors` (lines 228-234). -/
def main_refl_monitor (cfg : Config) : FluxMonitor where
  fcen := fcen_of cfg
  fwidth := fwidth_of cfg
  nfreq := 50
  region :=
    { center := ⟨-cfg.gap/2 - 1000, 0, cfg.bridge_t/2⟩
      size := ⟨0, cfg.bridge_w, cfg.bridge_t * 3⟩ }

/-- The transmission flux monitor `monitors["trans"]` the main run adds
in `setup_monitors` (lines 237-243). -/
def main_trans_monitor (cfg : Config) : FluxMonitor where
  fcen := fcen_of cfg
  fwidth := fwidth_of cfg
  nfreq := 50
  region :=
    { center := ⟨cfg.gap/2 + 1000, 0, cfg.bridge_t/2⟩
      size := ⟨0, cfg.bridge_w, cfg.bridge_t * 3⟩ }

/-- The flux monitor `refl_fr` the reference (empty-geometry) run adds
in `run_reference` (lines 262-268). -/
def reference_refl_monitor (cfg : Config) : FluxMonitor where
  fcen := fcen_of cfg
  fwidth := fwidth_of cfg
  nfreq := 50
  region :=
    { center := ⟨-cfg.gap/2 - 1000, 0, cfg.bridge_t/2⟩
      size := ⟨0, cfg.bridge_w, cfg.bridge_t * 3⟩ }

/-- The solver's uniform frequency grid for a flux monitor: `nfreq`
samples spanning `[fcen - fwidth/2, fcen + fwidth/2]` (behaviour of the
external `add_flux`; the pipeline only relies on the grid being a
function of `(fcen, fwidth, nfreq)`). -/
def freq_grid (m : FluxMonitor) : List ℚ :=
  (List.range m.nfreq).map
    (fun k => m.fcen - m.fwidth/2 + m.fwidth * k / ((m.nfreq : ℚ) - 1))

/-- The body of the comprehension
`[-r / i if i != 0 else 0 for r, i in zip(refl_flux, incident_flux)]`
(line 347), applied to one `(r, i)` pair. -/
def s11_elem (r i : ℚ) : ℚ := if i ≠ 0 then -r / i else 0

/-- The body of the comprehension
`[t / i if i != 0 else 0 for t, i in zip(trans_flux, incident_flux)]`
(line 349), applied to one `(t, i)` pair. -/
def s21_elem (t i : ℚ) : ℚ := if i ≠ 0 then t / i else 0

/-- `s11 = [-r / i if i != 0 else 0 for r, i in zip(refl_flux,
incident_flux)]` (line 347); `zip` pairs the lists up to the shorter
length. -/
def s11 (refl_flux incident_flux : List ℚ) : List ℚ :=
  List.zipWith s11_elem refl_flux incident_flux

/-- `s21 = [t / i if i != 0 else 0 for t, i in zip(trans_flux,
incident_flux)]` (line 349). -/
def s21 (trans_flux incident_flux : List ℚ) : List ℚ :=
  List.zipWith s21_elem trans_flux incident_flux

/-- The body of `[10 * np.log10(abs(s)) if s != 0 else -100 for s in
...]` (lines 348 and 350) at one ratio `s`: `np.log10` is base-10
logarithm, embedded as `Real.logb 10`. -/
noncomputable def db_elem (s : ℚ) : ℝ :=
  if s ≠ 0 then 10 * Real.logb 10 |(s : ℝ)| else -100

/-- `s11_db = [10 * np.log10(abs(s)) if s != 0 else -100 for s in s11]`
(line 348). -/
noncomputable def s11_db (refl_flux incident_flux : List ℚ) : List ℝ :=
  (s11 refl_flux incident_flux).map db_elem

/-- `s21_db = [10 * np.log10(abs(s)) if s != 0 else -100 for s in s21]`
(line 350). -/
noncomputable def s21_db (trans_flux incident_flux : List ℚ) : List ℝ :=
  (s21 trans_flux incident_flux).map db_elem

/-- The field component driven/probed; the script only ever uses
`mp.Ez`. -/
inductive Component where
  | Ez : Component
  deriving DecidableEq

/-- A stopping condition passed to the solver's blocking `run` call:
either a fixed time ceiling (`until=t`) or the field-decay detector
`mp.stop_when_fields_decayed(dt, component, point, decay_by)`. -/
inductive StoppingCondition where
  | afterTime (t : ℚ) : StoppingCondition
  | whenFieldsDecayed (dt : ℚ) (c : Component) (pt : Vec3) (decayBy : ℚ) :
      StoppingCondition
  deriving DecidableEq

/-- Whether a stopping condition is a fixed maximum-time ceiling. -/
def StoppingCondition.isTimeCeiling : StoppingCondition → Bool
  | StoppingCondition.afterTime _ => true
  | StoppingCondition.whenFieldsDecayed _ _ _ _ => false

/-- The `until_after_sources` stopping conditions of the reference
run's `sim.run` call (line 271): only the decay detector
`stop_when_fields_decayed(50, mp.Ez, (0, 0, bridge_t/2), 1e-6)`. -/
def reference_run_stop (cfg : Config) : List StoppingCondition :=
  [StoppingCondition.whenFieldsDecayed 50 Component.Ez
    ⟨0, 0, cfg.bridge_t/2⟩ (1/1000000)]

/-- The `until_after_sources` stopping conditions of the main run's
`sim.run` call (line 334): the same decay detector and nothing else. -/
def main_run_stop (cfg : Config) : List StoppingCondition :=
  [StoppingCondition.whenFieldsDecayed 50 Component.Ez
    ⟨0, 0, cfg.bridge_t/2⟩ (1/1000000)]

/-- The keys of the `results` dict saved by `run_simulation`
(lines 353-359). -/
def results_keys : List String :=
  ["freqs_ghz", "s11_db", "s21_db", "field_t", "field_ez"]

/-- The solver/state-affecting calls `run_simulation` and
`run_reference` make, in program order (Python executes the script
sequentially; pure arithmetic such as the S-parameter post-processing
is not an event). -/
inductive Event where
  | makeOutputDir : Event
  | createSim : Event
  | clearGeometry : Event
  | addFluxMonitor (m : FluxMonitor) : Event
  | runUntilDecayed (stop : List StoppingCondition) : Event
  | getFluxes : Event
  | getFluxFreqs : Event
  | resetMeep : Event
  | getFluxData : Event
  | loadMinusFluxData (target : FluxMonitor) : Event
  | saveResults : Event
  deriving DecidableEq

/-- An event with its payload forgotten, for payload-independent
ordering statements. -/
inductive EventKind where
  | makeOutputDir : EventKind
  | createSim : EventKind
  | clearGeometry : EventKind
  | addFluxMonitor : EventKind
  | runUntilDecayed : EventKind
  | getFluxes : EventKind
  | getFluxFreqs : EventKind
  | resetMeep : EventKind
  | getFluxData : EventKind
  | loadMinusFluxData : EventKind
  | saveResults : EventKind
  deriving DecidableEq

/-- The kind of an event. -/
def Event.kind : Event → EventKind
  | Event.makeOutputDir => EventKind.makeOutputDir
  | Event.createSim => EventKind.createSim
  | Event.clearGeometry => EventKind.clearGeometry
  | Event.addFluxMonitor _ => EventKind.addFluxMonitor
  | Event.runUntilDecayed _ => EventKind.runUntilDecayed
  | Event.getFluxes => EventKind.getFluxes
  | Event.getFluxFreqs => EventKind.getFluxFreqs
  | Event.resetMeep => EventKind.resetMeep
  | Event.getFluxData => EventKind.getFluxData
  | Event.loadMinusFluxData _ => EventKind.loadMinusFluxData
  | Event.saveResults => EventKind.saveResults

/-- The calls `run_reference(cfg, output_dir)` makes (lines 248-279) in
program order: create the simulation, clear its geometry, add the
reflection flux monitor, run to the decay criterion, read fluxes and
the frequency grid, reset, and hand back the captured flux data. -/
def run_reference_trace (cfg : Config) : List Event :=
  [Event.createSim,
   Event.clearGeometry,
   Event.addFluxMonitor (reference_refl_monitor cfg),
   Event.runUntilDecayed (reference_run_stop cfg),
   Event.getFluxes,
   Event.getFluxFreqs,
   Event.resetMeep,
   Event.getFluxData]

/-- The calls `run_simulation(cfg, ...)` makes (lines 286-368) in
program order: make the output directory, the whole of
`run_reference`, then create the main simulation, add both monitors,
load the negated reference flux data into the reflection monitor, run
to the decay criterion, read both monitors, and save the results. -/
def run_simulation_trace (cfg : Config) : List Event :=
  Event.makeOutputDir ::
    run_reference_trace cfg ++
      [Event.createSim,
       Event.addFluxMonitor (main_refl_monitor cfg),
       Event.addFluxMonitor (main_trans_monitor cfg),
       Event.loadMinusFluxData (main_refl_monitor cfg),
       Event.runUntilDecayed (main_run_stop cfg),
       Event.getFluxes,
       Event.getFluxes,
       Event.saveResults]

/-- A configuration with zero and negative extents: zero bridge
thickness, pad length, bridge width and substrate radius, negative gap
and substrate height. -/
def degenerate_config : Config where
  gap := -1
  bridge_w := 0
  bridge_t := 0
  pad_length := 0
  substrate_r := 0
  substrate_h := -5
  wall_thickness := 3
  resolution := 5
  pml_thickness := 2000
  freq_center_ghz := 5
  freq_width_ghz := 4

/-- C7: converting a positive physical frequency to internal units and
back (`meep_to_ghz(ghz_to_meep(f))`) reproduces it exactly, hence
within relative tolerance 1e-9; the forward conversion divides by the
fixed constant 300 and the inverse multiplies by the same constant. -/
theorem c7_unit_round_trip (f : ℚ) (hf : 0 < f) :
    meep_to_ghz (ghz_to_meep f) = f ∧
    |meep_to_ghz (ghz_to_meep f) - f| ≤ 1/1000000000 * |f| ∧
    ghz_to_meep f = f / 300 ∧ meep_to_ghz f = f * 300 := by
  have h : meep_to_ghz (ghz_to_meep f) = f := by
    unfold meep_to_ghz ghz_to_meep
    field_simp
  refine ⟨h, ?_, rfl, rfl⟩
  rw [h, sub_self, abs_zero]
  positivity

/-- Witness for C7 at the concrete frequency 5 GHz. -/
theorem c7_unit_round_trip_witness :
    meep_to_ghz (ghz_to_meep 5) = 5 ∧
    |meep_to_ghz (ghz_to_meep 5) - 5| ≤ 1/1000000000 * |(5 : ℚ)| ∧
    ghz_to_meep 5 = 5 / 300 ∧ meep_to_ghz 5 = 5 * 300 :=
  c7_unit_round_trip 5 (by norm_num)

/-- C8: in `build_geometry` the hollow tube is two concentric
cylinders, the FR4 outer at position 3 and the air inner at the
strictly later position 4, with the inner height `substrate_h + 100`
strictly greater than the outer height `substrate_h`; likewise in the
generated script's `build_geometry` (heights 10000 > 9600). -/
theorem c8_tube_cutout_order (cfg : Config) :
    (build_geometry cfg)[3]? =
      some (Primitive.cylinder ⟨0, 0, -cfg.substrate_h/2⟩ cfg.substrate_r
        cfg.substrate_h none (Material.medium 4.4)) ∧
    (build_geometry cfg)[4]? =
      some (Primitive.cylinder ⟨0, 0, -cfg.substrate_h/2⟩
        (cfg.substrate_r - cfg.wall_thickness) (cfg.substrate_h + 100)
        none Material.air) ∧
    (3 : ℕ) < 4 ∧ (build_geometry cfg).length = 5 ∧
    cfg.substrate_h < cfg.substrate_h + 100 ∧
    build_geometry_meep[3]? =
      some (Primitive.cylinder ⟨0, 0, 0⟩ 15000 9600 (some ⟨0, 0, 1⟩)
        (Material.medium 4.4)) ∧
    build_geometry_meep[4]? =
      some (Primitive.cylinder ⟨0, 0, 0⟩ 13000 10000 (some ⟨0, 0, 1⟩)
        Material.air) ∧
    (9600 : ℚ) < 10000 := by
  refine ⟨rfl, rfl, by norm_num, rfl, by linarith, rfl, rfl, by norm_num⟩

/-- C5: the reflection monitor the reference run adds and the one the
main run adds agree in every field — center, extent, frequency center,
frequency width, bin count 50 — so their frequency grids coincide. -/
theorem c5_identical_refl_monitors (cfg : Config) :
    reference_refl_monitor cfg = main_refl_monitor cfg ∧
    (reference_refl_monitor cfg).region.center =
      (main_refl_monitor cfg).region.center ∧
    (reference_refl_monitor cfg).region.size =
      (main_refl_monitor cfg).region.size ∧
    (reference_refl_monitor cfg).fcen = (main_refl_monitor cfg).fcen ∧
    (reference_refl_monitor cfg).fwidth = (main_refl_monitor cfg).fwidth ∧
    (reference_refl_monitor cfg).nfreq = 50 ∧
    (main_refl_monitor cfg).nfreq = 50 ∧
    freq_grid (reference_refl_monitor cfg) = freq_grid (main_refl_monitor cfg) :=
  ⟨rfl, rfl, rfl, rfl, rfl, rfl, rfl, rfl⟩

/-- C3 counterexample: with reflected flux `[1]` and incident flux
`[2, 7]` (unequal lengths) the computation does not fail: `zip`
silently truncates to length 1 and the ratio `-1/2` is taken; likewise
for the transmitted side. -/
theorem c3_counterexample :
    s11 [1] [2, 7] = [-(1/2)] ∧ (s11 [1] [2, 7]).length = 1 ∧
    s21 [3] [2, 7] = [3/2] ∧ (s21 [3] [2, 7]).length = 1 := by
  refine ⟨?_, rfl, ?_, rfl⟩ <;> norm_num [s11, s21, s11_elem, s21_elem]

/-- C3 amended: mismatched-length flux arrays are silently truncated —
the S-parameter lists always have the length of the shorter input; no
`MonitorGridMismatch` failure exists in the computation. -/
theorem c3_amended_truncation (refl_flux trans_flux incident_flux : List ℚ) :
    (s11 refl_flux incident_flux).length =
      min refl_flux.length incident_flux.length ∧
    (s21 trans_flux incident_flux).length =
      min trans_flux.length incident_flux.length :=
  ⟨List.length_zipWith _ _ _, List.length_zipWith _ _ _⟩

/-- C9 counterexample: on a configuration with zero and negative
extents, `build_geometry` does not fail — it returns the usual five
primitives (the first being a degenerate zero-size block) and the
pipeline still performs both simulation runs. -/
theorem c9_counterexample :
    (build_geometry degenerate_config).length = 5 ∧
    (build_geometry degenerate_config)[0]? =
      some (Primitive.block ⟨1/2, 0, 0⟩ ⟨0, 0, 0⟩ Material.metal) ∧
    ((run_simulation_trace degenerate_config).map Event.kind).count
      EventKind.runUntilDecayed = 2 := by
  refine ⟨rfl, ?_, by decide⟩
  norm_num [build_geometry, degenerate_config]

/-- C9 amended: `build_geometry` performs no extent validation at all —
for every configuration, including ones with zero or negative extents,
it returns its five primitives unconditionally and no `InvalidGeometry`
failure aborts the pipeline. -/
theorem c9_amended_no_validation (cfg : Config) :
    (build_geometry cfg).length = 5 := rfl

/-- C4: in every execution of `run_simulation`, the call sequence is
fixed: exactly two solver runs occur; the reference (empty-geometry)
run — event 4, directly after `clearGeometry` — completes before the
main simulation is even created (event 9); and the negated reference
flux data is loaded into the main reflection monitor (event 12) before
the main run's time stepping starts (event 13). -/
theorem c4_two_pass_ordering (cfg : Config) :
    (run_simulation_trace cfg).map Event.kind =
      [EventKind.makeOutputDir, EventKind.createSim, EventKind.clearGeometry,
       EventKind.addFluxMonitor, EventKind.runUntilDecayed,
       EventKind.getFluxes, EventKind.getFluxFreqs, EventKind.resetMeep,
       EventKind.getFluxData, EventKind.createSim, EventKind.addFluxMonitor,
       EventKind.addFluxMonitor, EventKind.loadMinusFluxData,
       EventKind.runUntilDecayed, EventKind.getFluxes, EventKind.getFluxes,
       EventKind.saveResults] ∧
    ((run_simulation_trace cfg).map Event.kind).count
      EventKind.runUntilDecayed = 2 ∧
    (run_simulation_trace cfg)[2]? = some Event.clearGeometry ∧
    (run_simulation_trace cfg)[4]? =
      some (Event.runUntilDecayed (reference_run_stop cfg)) ∧
    (run_simulation_trace cfg)[9]? = some Event.createSim ∧
    (run_simulation_trace cfg)[12]? =
      some (Event.loadMinusFluxData (main_refl_monitor cfg)) ∧
    (run_simulation_trace cfg)[13]? =
      some (Event.runUntilDecayed (main_run_stop cfg)) := by
  have hmap : (run_simulation_trace cfg).map Event.kind =
      [EventKind.makeOutputDir, EventKind.createSim, EventKind.clearGeometry,
       EventKind.addFluxMonitor, EventKind.runUntilDecayed,
       EventKind.getFluxes, EventKind.getFluxFreqs, EventKind.resetMeep,
       EventKind.getFluxData, EventKind.createSim, EventKind.addFluxMonitor,
       EventKind.addFluxMonitor, EventKind.loadMinusFluxData,
       EventKind.runUntilDecayed, EventKind.getFluxes, EventKind.getFluxes,
       EventKind.saveResults] := rfl
  refine ⟨hmap, ?_, rfl, rfl, rfl, rfl, rfl⟩
  rw [hmap]
  decide

/-- C6 counterexample: at the default configuration, the only stopping
condition either `sim.run` call receives is the field-decay detector
`stop_when_fields_decayed(50, Ez, (0, 0, 250), 1e-6)` — no
maximum-time ceiling is supplied at all — and the saved results
contain no non-convergent flag. -/
theorem c6_counterexample :
    reference_run_stop config =
      [StoppingCondition.whenFieldsDecayed 50 Component.Ez ⟨0, 0, 250⟩
        (1/1000000)] ∧
    main_run_stop config = reference_run_stop config ∧
    (reference_run_stop config).all (fun s => ! s.isTimeCeiling) = true ∧
    (main_run_stop config).all (fun s => ! s.isTimeCeiling) = true ∧
    results_keys.contains "non_convergent" = false := by
  refine ⟨by norm_num [reference_run_stop, config, MM_TO_UM], rfl, rfl, rfl,
    by decide⟩

/-- C6 amended: both runs are stopped only by the field-decay detector
(window 50, component Ez, threshold 1e-6); no caller-supplied
maximum-time ceiling exists in either `sim.run` call and the emitted
results carry no non-convergent flag, so a run whose decay criterion
never triggers is not bounded by any ceiling. -/
theorem c6_amended_no_ceiling (cfg : Config) :
    reference_run_stop cfg =
      [StoppingCondition.whenFieldsDecayed 50 Component.Ez
        ⟨0, 0, cfg.bridge_t/2⟩ (1/1000000)] ∧
    main_run_stop cfg = reference_run_stop cfg ∧
    (reference_run_stop cfg).all (fun s => ! s.isTimeCeiling) = true ∧
    (main_run_stop cfg).all (fun s => ! s.isTimeCeiling) = true ∧
    results_keys.contains "non_convergent" = false := by
  refine ⟨rfl, rfl, rfl, rfl, by decide⟩

/-- C1 counterexample: at bin 0 of reflected flux `[0]` and incident
flux `[2]` the incident flux is nonzero, yet the dB output is the
sentinel `-100` and not `10·log10(|S11|) = 10·log10(0)` (which is not
`-100`; as embedded, `Real.logb 10 0 = 0`). -/
theorem c1_counterexample :
    (2 : ℚ) ≠ 0 ∧
    s11 [0] [2] = [0] ∧
    s11_db [0] [2] = [-100] ∧
    10 * Real.logb 10 |((0 : ℚ) : ℝ)| = 0 ∧
    s11_db [0] [2] ≠ [10 * Real.logb 10 |((0 : ℚ) : ℝ)|] := by
  have h0 : s11 [0] [2] = [0] := by norm_num [s11, s11_elem]
  have hdb : s11_db [0] [2] = [-100] := by
    rw [s11_db, h0]
    simp [db_elem]
  have hlog : 10 * Real.logb 10 |((0 : ℚ) : ℝ)| = 0 := by
    simp [Real.logb_zero]
  refine ⟨by norm_num, h0, hdb, hlog, ?_⟩
  rw [hdb, hlog]
  simp

/-- C1 amended: for every bin `k` with nonzero incident flux,
`S11ₖ = -Rₖ/Iₖ` and `S21ₖ = Tₖ/Iₖ`, independently per bin; and whenever
that ratio is itself nonzero (a zero ratio takes the `-100` sentinel
instead, see C10), the dB output of the bin is `10·log10(|ratio|)`. -/
theorem c1_per_bin_sparams (refl_flux trans_flux incident_flux : List ℚ)
    (k : ℕ) (hr : k < refl_flux.length) (ht : k < trans_flux.length)
    (hi : k < incident_flux.length) (hnz : incident_flux[k] ≠ 0) :
    (s11 refl_flux incident_flux)[k]? =
      some (-refl_flux[k] / incident_flux[k]) ∧
    (s21 trans_flux incident_flux)[k]? =
      some (trans_flux[k] / incident_flux[k]) ∧
    (refl_flux[k] ≠ 0 →
      (s11_db refl_flux incident_flux)[k]? =
        some (10 * Real.logb 10 |((-refl_flux[k] / incident_flux[k] : ℚ) : ℝ)|)) ∧
    (trans_flux[k] ≠ 0 →
      (s21_db trans_flux incident_flux)[k]? =
        some (10 * Real.logb 10 |((trans_flux[k] / incident_flux[k] : ℚ) : ℝ)|)) := by
  have h1 : (s11 refl_flux incident_flux)[k]? =
      some (s11_elem refl_flux[k] incident_flux[k]) := by
    rw [s11, List.getElem?_zipWith, List.getElem?_eq_getElem hr,
      List.getElem?_eq_getElem hi]
  have h2 : (s21 trans_flux incident_flux)[k]? =
      some (s21_elem trans_flux[k] incident_flux[k]) := by
    rw [s21, List.getElem?_zipWith, List.getElem?_eq_getElem ht,
      List.getElem?_eq_getElem hi]
  have he1 : s11_elem refl_flux[k] incident_flux[k] =
      -refl_flux[k] / incident_flux[k] := by
    rw [s11_elem, if_pos hnz]
  have he2 : s21_elem trans_flux[k] incident_flux[k] =
      trans_flux[k] / incident_flux[k] := by
    rw [s21_elem, if_pos hnz]
  refine ⟨by rw [h1, he1], by rw [h2, he2], fun hrz => ?_, fun htz => ?_⟩
  · have hz : s11_elem refl_flux[k] incident_flux[k] ≠ 0 := by
      rw [he1]
      exact div_ne_zero (neg_ne_zero.mpr hrz) hnz
    rw [s11_db, List.getElem?_map, h1]
    simp only [Option.map_some']
    rw [db_elem, if_pos hz, he1]
  · have hz : s21_elem trans_flux[k] incident_flux[k] ≠ 0 := by
      rw [he2]
      exact div_ne_zero htz hnz
    rw [s21_db, List.getElem?_map, h2]
    simp only [Option.map_some']
    rw [db_elem, if_pos hz, he2]

/-- Witness for the amended C1 at bin 0 of reflected flux `[1]`,
transmitted flux `[3]`, incident flux `[2]`. -/
theorem c1_per_bin_sparams_witness :
    (s11 [1] [2])[0]? = some ((-1 : ℚ) / 2) ∧
    (s21 [3] [2])[0]? = some ((3 : ℚ) / 2) ∧
    (s11_db [1] [2])[0]? = some (10 * Real.logb 10 |((-1 / 2 : ℚ) : ℝ)|) ∧
    (s21_db [3] [2])[0]? = some (10 * Real.logb 10 |((3 / 2 : ℚ) : ℝ)|) := by
  have h := c1_per_bin_sparams [1] [3] [2] 0 (by norm_num) (by norm_num)
    (by norm_num) (by norm_num)
  exact ⟨h.1, h.2.1, h.2.2.1 (by norm_num), h.2.2.2 (by norm_num)⟩

/-- C2: a bin with zero incident flux gets ratio 0 and the dB sentinel
`-100`, independently of the other bins; on the spec's concrete test
vectors the dB outputs are `[-100, 10·log10(0.5), -100]` on both
channels. -/
theorem c2_zero_incident_sentinel (refl_flux trans_flux incident_flux : List ℚ)
    (k : ℕ) (hr : k < refl_flux.length) (ht : k < trans_flux.length)
    (hi : k < incident_flux.length) (hz : incident_flux[k] = 0) :
    (s11 refl_flux incident_flux)[k]? = some 0 ∧
    (s21 trans_flux incident_flux)[k]? = some 0 ∧
    (s11_db refl_flux incident_flux)[k]? = some (-100) ∧
    (s21_db trans_flux incident_flux)[k]? = some (-100) ∧
    s11_db [1, 1, 0] [0, 2, 0] = [-100, 10 * Real.logb 10 (1/2), -100] ∧
    s21_db [1/2, 1, 0] [0, 2, 0] = [-100, 10 * Real.logb 10 (1/2), -100] := by
  have h1 : (s11 refl_flux incident_flux)[k]? =
      some (s11_elem refl_flux[k] incident_flux[k]) := by
    rw [s11, List.getElem?_zipWith, List.getElem?_eq_getElem hr,
      List.getElem?_eq_getElem hi]
  have h2 : (s21 trans_flux incident_flux)[k]? =
      some (s21_elem trans_flux[k] incident_flux[k]) := by
    rw [s21, List.getElem?_zipWith, List.getElem?_eq_getElem ht,
      List.getElem?_eq_getElem hi]
  have he1 : s11_elem refl_flux[k] incident_flux[k] = 0 := by
    rw [s11_elem, hz]
    simp
  have he2 : s21_elem trans_flux[k] incident_flux[k] = 0 := by
    rw [s21_elem, hz]
    simp
  have hdb0 : db_elem 0 = -100 := by simp [db_elem]
  have hc1 : s11 [1, 1, 0] [0, 2, 0] = [0, -(1/2), 0] := by
    norm_num [s11, s11_elem]
  have hc2 : s21 [1/2, 1, 0] [0, 2, 0] = [0, 1/2, 0] := by
    norm_num [s21, s21_elem]
  refine ⟨by rw [h1, he1], by rw [h2, he2], ?_, ?_, ?_, ?_⟩
  · rw [s11_db, List.getElem?_map, h1]
    simp only [Option.map_some']
    rw [he1, hdb0]
  · rw [s21_db, List.getElem?_map, h2]
    simp only [Option.map_some']
    rw [he2, hdb0]
  · rw [s11_db, hc1]
    simp only [List.map_cons, List.map_nil, db_elem]
    norm_num
  · rw [s21_db, hc2]
    simp only [List.map_cons, List.map_nil, db_elem]
    norm_num

/-- Witness for C2 at bin 0 of the spec's concrete test vectors (zero
incident flux there). -/
theorem c2_zero_incident_sentinel_witness :
    (s11_db [1, 1, 0] [0, 2, 0])[0]? = some ((-100 : ℝ)) ∧
    (s21_db [1/2, 1, 0] [0, 2, 0])[0]? = some ((-100 : ℝ)) := by
  have h := c2_zero_incident_sentinel [1, 1, 0] [1/2, 1, 0] [0, 2, 0] 0
    (by norm_num) (by norm_num) (by norm_num) (by norm_num)
  exact ⟨h.2.2.1, h.2.2.2.1⟩

/-- C10: a bin's dB output is the sentinel `-100` exactly when its
ratio is 0 — which happens when the incident flux is 0, and also when
the reflected (or transmitted) flux is 0 while the incident flux is
not — and a nonzero ratio is always converted by `10·log10(|ratio|)`,
never by the sentinel branch. -/
theorem c10_sentinel_on_zero_ratio (r t i : ℚ) :
    (i = 0 → s11_elem r i = 0 ∧ s21_elem t i = 0 ∧
      db_elem (s11_elem r i) = -100 ∧ db_elem (s21_elem t i) = -100) ∧
    (i ≠ 0 → r = 0 → s11_elem r i = 0 ∧ db_elem (s11_elem r i) = -100) ∧
    (i ≠ 0 → t = 0 → s21_elem t i = 0 ∧ db_elem (s21_elem t i) = -100) ∧
    (s11_elem r i ≠ 0 →
      db_elem (s11_elem r i) = 10 * Real.logb 10 |((s11_elem r i : ℚ) : ℝ)|) ∧
    (s21_elem t i ≠ 0 →
      db_elem (s21_elem t i) = 10 * Real.logb 10 |((s21_elem t i : ℚ) : ℝ)|) := by
  have hdb0 : db_elem 0 = -100 := by simp [db_elem]
  refine ⟨fun hi => ?_, fun hi hr => ?_, fun hi ht => ?_, fun hs => ?_,
    fun hs => ?_⟩
  · have h1 : s11_elem r i = 0 := by simp [s11_elem, hi]
    have h2 : s21_elem t i = 0 := by simp [s21_elem, hi]
    exact ⟨h1, h2, by rw [h1, hdb0], by rw [h2, hdb0]⟩
  · have h1 : s11_elem r i = 0 := by simp [s11_elem, hi, hr]
    exact ⟨h1, by rw [h1, hdb0]⟩
  · have h1 : s21_elem t i = 0 := by simp [s21_elem, hi, ht]
    exact ⟨h1, by rw [h1, hdb0]⟩
  · rw [db_elem, if_pos hs]
  · rw [db_elem, if_pos hs]

end BridgeGapResonator
